import Mathlib

/-!
Shallow embedding of `src/custom_components/vestel/media_player.py`
(the `VestelDevice` media-player entity for Vestel/Procaster TVs).

Conventions of the embedding:

* Entity states are the Home Assistant string constants imported at the top
  of the module (`STATE_UNKNOWN`, `STATE_IDLE`, `STATE_OFF`, `STATE_PLAYING`,
  `STATE_PAUSED`); they are interned strings in Python, so the `is` /
  `is not` comparisons in `async_turn_on` / `async_turn_off` behave as
  string equality and are modelled as equality.
* Side effects on the device handle (`self.device.…` calls and
  `asyncio.sleep`) are modelled as an explicit list of `Call` values in
  program order.
* Python integers are modelled as `Int`.  The source computes digit keys
  with `int(channel/100)` etc.; for the positive channel numbers the claims
  quantify over, float division + truncation, floor division and the Lean
  `Int` division all coincide.
* A Python statement that raises (the `ValueError` from `list.index` in
  `async_select_source`, the `NameError` from the undefined `STATE_STOP`
  name in `async_media_stop`) is modelled by an `Option` result: `none`
  means the handler raised at that point, after having emitted the calls
  listed, and left the entity fields unchanged.
-/

namespace Vestel

/-- Home Assistant state constant `STATE_UNKNOWN` (a plain string). -/
def STATE_UNKNOWN : String := "unknown"

/-- Home Assistant state constant `STATE_IDLE`. -/
def STATE_IDLE : String := "idle"

/-- Home Assistant state constant `STATE_OFF`. -/
def STATE_OFF : String := "off"

/-- Home Assistant state constant `STATE_PLAYING`. -/
def STATE_PLAYING : String := "playing"

/-- Home Assistant state constant `STATE_PAUSED` (with trailing spaces as in
the import, the value is still the plain string). -/
def STATE_PAUSED : String := "paused"

/-- Home Assistant media-type constant `MEDIA_TYPE_CHANNEL`. -/
def MEDIA_TYPE_CHANNEL : String := "channel"

/-- The declared entity-state set of the adapter: exactly the five state
constants imported from `homeassistant.const` on lines 17-19 of the
source (`STATE_IDLE, STATE_UNKNOWN, STATE_OFF, STATE_PAUSED,
STATE_PLAYING`). -/
def declaredStates : List String :=
  [STATE_UNKNOWN, STATE_IDLE, STATE_OFF, STATE_PLAYING, STATE_PAUSED]

/-- The module-scope bindings of state-constant names created by the import
statement on lines 17-19 of the source.  `STATE_STOP` is deliberately
absent: no import or assignment in the module binds that name. -/
def moduleStateBindings : List (String × String) :=
  [("STATE_IDLE", STATE_IDLE), ("STATE_UNKNOWN", STATE_UNKNOWN),
   ("STATE_OFF", STATE_OFF), ("STATE_PAUSED", STATE_PAUSED),
   ("STATE_PLAYING", STATE_PLAYING)]

/-- Python name resolution for a state-constant name in the module scope:
`some v` when the name is bound to value `v`, `none` when referencing it
raises `NameError`. -/
def resolveStateName (n : String) : Option String :=
  (moduleStateBindings.find? (fun p => p.1 = n)).map Prod.snd

/-- One observable side effect on the device handle (or the event loop),
in program order. -/
inductive Call where
  | sendkey (k : Int)
  | stopNetflix
  | startNetflix
  | stopYoutube
  | startYoutube
  | sleep (secs : Nat)
  | devTurnOff
  | devTurnOn
  | toggleMute
  deriving DecidableEq

/-- Whether a call is a key-code send (`self.device.sendkey(…)`). -/
def isKeyCall : Call → Bool
  | Call.sendkey _ => true
  | _ => false

/-- The mutable entity fields that the claims depend on:
`self._sources_list`, `self._current_source` and `self._state`. -/
structure Entity where
  sources : List String
  currentSource : String
  state : String
  deriving DecidableEq

/-- The per-poll device observations read by `async_update`:
`self.device.get_state()` (the boolean playing signal),
`self.device.get_media_title()` (may be `None`) and `self.device.source`. -/
structure DeviceStatus where
  playing : Bool
  mediaTitle : Option String
  source : String
  deriving DecidableEq

/-- Check whether `needle` occurs as a contiguous run inside `hay`
(the Python test `needle in hay` on strings, on the character lists). -/
def hasSub (needle : List Char) : List Char → Bool
  | [] => needle.isEmpty
  | c :: t => needle.isPrefixOf (c :: t) || hasSub needle t

/-- the Python substring test `pat in s`. -/
def strContains (s pat : String) : Bool :=
  hasSub pat.data s.data

/-- Embedding of `async_update` (source lines 125-139): set `_state` from
the boolean playing signal, then derive `_current_source` by the ordered
title/source heuristics.  `media_title = self.media_title if
self.media_title else ""` maps a `None` (and the empty) title to `""`. -/
def asyncUpdate (e : Entity) (d : DeviceStatus) : Entity :=
  let st := if d.playing then STATE_PLAYING else STATE_OFF
  let mediaTitle := d.mediaTitle.getD ""
  let src :=
    if strContains mediaTitle "TV" then "TV"
    else if mediaTitle ∈ e.sources then mediaTitle
    else if d.source ∈ e.sources then d.source
    else e.currentSource
  { e with state := st, currentSource := src }

/-- Embedding of `async_turn_off` (source lines 159-164): guarded on
`self._state is not STATE_OFF`; when it fires it calls
`self.device.turn_off()` and sets `_state = STATE_OFF`. -/
def asyncTurnOff (e : Entity) : List Call × Entity :=
  if e.state ≠ STATE_OFF then
    ([Call.devTurnOff], { e with state := STATE_OFF })
  else ([], e)

/-- Embedding of `async_turn_on` (source lines 166-171): guarded on
`self._state is STATE_OFF`; when it fires it calls
`self.device.turn_on()` and sets `_state = STATE_PLAYING`. -/
def asyncTurnOn (e : Entity) : List Call × Entity :=
  if e.state = STATE_OFF then
    ([Call.devTurnOn], { e with state := STATE_PLAYING })
  else ([], e)

/-- Embedding of `async_mute_volume` (source lines 185-187): the handler
ignores its `mute` argument and always calls `self.device.toggle_mute()`. -/
def asyncMuteVolume (mute : Bool) : List Call :=
  [Call.toggleMute]

/-- Modelled from the device-handle boundary of the spec (the external
`pyvesteltv` library is not part of this repository): the handle exposes a
mute *toggle*, so its effect on the device mute flag is negation. -/
def deviceToggleMute (m : Bool) : Bool := !m

/-- Effect of a call sequence on the device mute flag: only
`toggle_mute` calls touch it. -/
def applyMuteCalls (m : Bool) (cs : List Call) : Bool :=
  cs.foldl (fun acc c => match c with
    | Call.toggleMute => deviceToggleMute acc
    | _ => acc) m

/-- Embedding of `async_media_stop` (source lines 201-205): send key 1024,
then execute `self._state = STATE_STOP`.  The right-hand side is a bare
name resolved in the module scope; the second component is the resolved
value (`none`: the reference raises `NameError` and no state is stored). -/
def asyncMediaStop : List Call × Option String :=
  ([Call.sendkey 1024], resolveStateName "STATE_STOP")

/-- Embedding of the channel branch of `async_play_media` (source lines
215-224), for `media_type == MEDIA_TYPE_CHANNEL` and `channel =
int(media_id)`: conditional hundreds key `1000 + channel/100`, conditional
tens key `1000 + channel/10`, unconditional units key
`1000 - (channel/10)*10 + channel`, then the confirm key 1053. -/
def asyncPlayMedia (mediaType : String) (channel : Int) : List Call :=
  if mediaType = MEDIA_TYPE_CHANNEL then
    (if channel > 99 then [Call.sendkey (1000 + channel / 100)] else []) ++
    (if channel > 9 then [Call.sendkey (1000 + channel / 10)] else []) ++
    [Call.sendkey (1000 - channel / 10 * 10 + channel), Call.sendkey 1053]
  else []

/-- The units-key expression of source line 223,
`1000 - int(channel/10)*10 + channel`, as a function of the channel. -/
def unitsKeyExpr (n : Int) : Int :=
  1000 - n / 10 * 10 + n

/-- The digit-key sequence the claim describes for entering channel `n`
(1..999): its base-10 digits, most significant first and without leading
zeros, each digit `d` encoded as key `1000 + d`, followed by the confirm
key 1053.  This is the specification side, to compare with
`asyncPlayMedia`. -/
def claimedChannelKeys (n : Int) : List Call :=
  (if n ≥ 100 then
     [Call.sendkey (1000 + n / 100 % 10), Call.sendkey (1000 + n / 10 % 10),
      Call.sendkey (1000 + n % 10)]
   else if n ≥ 10 then
     [Call.sendkey (1000 + n / 10 % 10), Call.sendkey (1000 + n % 10)]
   else [Call.sendkey (1000 + n % 10)]) ++ [Call.sendkey 1053]

/-- The calls issued by the leading `if/elif` of `async_select_source`
(source lines 228-233): when the current source is a streaming app, stop
that app and sleep 3 seconds. -/
def leavingCalls (cur : String) : List Call :=
  if cur = "Netflix" then [Call.stopNetflix, Call.sleep 3]
  else if cur = "YouTube" then [Call.stopYoutube, Call.sleep 3]
  else []

/-- the Python method `list.index` on a list of strings, made total with `Option`:
`some i` is the zero-based index of the first occurrence, `none` means the
method raises `ValueError`. -/
def idxOf (xs : List String) (s : String) : Option Nat :=
  match xs with
  | [] => none
  | x :: t => if x = s then some 0 else (idxOf t s).map (fun n => n + 1)

/-- Embedding of `async_select_source` (source lines 226-242): leaving
calls for the current source, then either the streaming-app start call or
the source-menu key 1056 followed by the digit key `1001 + index`.  The
second component is `some` of the updated entity on success; it is `none`
when `self.source_list.index(source)` raises, in which case the menu key
1056 has already been sent (the index expression is evaluated as the
argument of the second `sendkey`) and `self._current_source = source` is
never reached. -/
def asyncSelectSource (e : Entity) (src : String) : List Call × Option Entity :=
  if src = "YouTube" then
    (leavingCalls e.currentSource ++ [Call.startYoutube],
     some { e with currentSource := src })
  else if src = "Netflix" then
    (leavingCalls e.currentSource ++ [Call.startNetflix],
     some { e with currentSource := src })
  else
    match idxOf e.sources src with
    | some i =>
        (leavingCalls e.currentSource ++
           [Call.sendkey 1056, Call.sendkey (1001 + (i : Int))],
         some { e with currentSource := src })
    | none => (leavingCalls e.currentSource ++ [Call.sendkey 1056], none)

/-! Helper lemmas (shared; none of them is a claim theorem). -/

/-- When the element is absent, `idxOf` returns `none` (the Python
`list.index` raises `ValueError`). -/
theorem idxOf_eq_none_of_notMem (xs : List String) (s : String)
    (h : s ∉ xs) : idxOf xs s = none := by
  induction xs with
  | nil => rfl
  | cons x t ih =>
      have hx : ¬ x = s := fun hh => h (by simp [hh])
      have ht : s ∉ t := fun hh => h (List.mem_cons_of_mem _ hh)
      simp [idxOf, hx, ih ht]

/-- The leaving-calls block of `async_select_source` sends no key code:
it only issues app-stop calls and a sleep. -/
theorem leavingCalls_no_key (cur : String) :
    (leavingCalls cur).filter isKeyCall = [] := by
  unfold leavingCalls
  split_ifs <;> rfl

/-- When the guard fails, `async_turn_off` issues no call and keeps the
entity. -/
theorem asyncTurnOff_noop (e : Entity) (h : e.state = STATE_OFF) :
    asyncTurnOff e = ([], e) := by
  unfold asyncTurnOff
  rw [if_neg (not_not_intro h)]

/-- When the guard fires, `async_turn_off` sends power-off and sets the
state to off. -/
theorem asyncTurnOff_act (e : Entity) (h : e.state ≠ STATE_OFF) :
    asyncTurnOff e = ([Call.devTurnOff], { e with state := STATE_OFF }) := by
  unfold asyncTurnOff
  rw [if_pos h]

/-- When the guard fails, `async_turn_on` issues no call and keeps the
entity. -/
theorem asyncTurnOn_noop (e : Entity) (h : e.state ≠ STATE_OFF) :
    asyncTurnOn e = ([], e) := by
  unfold asyncTurnOn
  rw [if_neg h]

/-- When the guard fires, `async_turn_on` sends power-on and sets the
state to playing. -/
theorem asyncTurnOn_act (e : Entity) (h : e.state = STATE_OFF) :
    asyncTurnOn e = ([Call.devTurnOn], { e with state := STATE_PLAYING }) := by
  unfold asyncTurnOn
  rw [if_pos h]

/-- After `async_turn_off` the entity state is off. -/
theorem asyncTurnOff_state (e : Entity) :
    (asyncTurnOff e).2.state = STATE_OFF := by
  unfold asyncTurnOff
  split_ifs with h
  · rfl
  · exact not_not.mp h

/-- After `async_turn_on` the entity state is not off. -/
theorem asyncTurnOn_state_ne (e : Entity) :
    (asyncTurnOn e).2.state ≠ STATE_OFF := by
  unfold asyncTurnOn
  split_ifs with h
  · show STATE_PLAYING ≠ STATE_OFF
    decide
  · exact h

/-! Claim theorems. -/

/-- C1: for channel numbers N in 1..999, `async_play_media` is claimed to
send the base-10 digit keys of N (digit d as key 1000+d) followed by the
confirm key 1053.  The code satisfies this for N in 1..99 but not for
N ≥ 100: at N = 100 the second key sent is `1000 + 100/10 = 1010`, which
is not a digit key, instead of the tens-digit key 1000; the sequence sent
differs from the digit-key sequence that reconstructs to 100. -/
theorem c1_channel_digit_keys_bug :
    asyncPlayMedia MEDIA_TYPE_CHANNEL 100 =
      [Call.sendkey 1001, Call.sendkey 1010, Call.sendkey 1000,
       Call.sendkey 1053] ∧
    claimedChannelKeys 100 =
      [Call.sendkey 1001, Call.sendkey 1000, Call.sendkey 1000,
       Call.sendkey 1053] ∧
    asyncPlayMedia MEDIA_TYPE_CHANNEL 100 ≠ claimedChannelKeys 100 ∧
    (∀ n : Fin 99,
      asyncPlayMedia MEDIA_TYPE_CHANNEL (((n : Nat) : Int) + 1) =
        claimedChannelKeys (((n : Nat) : Int) + 1)) := by
  refine ⟨by decide, by decide, by decide, by decide⟩

/-- C2: `async_media_stop` sends the stop key 1024 and then assigns
`STATE_STOP` to the entity state; that name resolves to no value in the
module scope, so the assigned value is not any member of the declared
state set {unknown, idle, off, playing, paused}. -/
theorem c2_stop_assigns_undeclared_state :
    asyncMediaStop.1 = [Call.sendkey 1024] ∧
    asyncMediaStop.2 = none ∧
    asyncMediaStop.2 ∉ declaredStates.map some := by
  refine ⟨rfl, rfl, by decide⟩

/-- C3: `async_mute_volume` issues exactly the toggle-mute call for either
boolean argument, so its behaviour is independent of the argument, and the
device mute flag after two consecutive mute calls (any arguments) equals
its value before them. -/
theorem c3_mute_always_toggles :
    ∀ (b b' m : Bool),
      asyncMuteVolume b = [Call.toggleMute] ∧
      asyncMuteVolume b = asyncMuteVolume b' ∧
      applyMuteCalls m (asyncMuteVolume b ++ asyncMuteVolume b') = m := by
  decide

/-- C4: per poll, the current source is derived by ordered heuristics with
first match winning: (a) title containing "TV" gives "TV"; (b) else title
equal to a configured source gives the title; (c) else raw device source
equal to a configured source gives that value; (d) else the source is
unchanged; in particular a title containing "TV" that also equals a
configured source name still gives "TV". -/
theorem c4_source_heuristics :
    ∀ (e : Entity) (d : DeviceStatus),
      (strContains (d.mediaTitle.getD "") "TV" = true →
        (asyncUpdate e d).currentSource = "TV") ∧
      (strContains (d.mediaTitle.getD "") "TV" = false →
        d.mediaTitle.getD "" ∈ e.sources →
        (asyncUpdate e d).currentSource = d.mediaTitle.getD "") ∧
      (strContains (d.mediaTitle.getD "") "TV" = false →
        d.mediaTitle.getD "" ∉ e.sources →
        d.source ∈ e.sources →
        (asyncUpdate e d).currentSource = d.source) ∧
      (strContains (d.mediaTitle.getD "") "TV" = false →
        d.mediaTitle.getD "" ∉ e.sources →
        d.source ∉ e.sources →
        (asyncUpdate e d).currentSource = e.currentSource) ∧
      (strContains (d.mediaTitle.getD "") "TV" = true →
        d.mediaTitle.getD "" ∈ e.sources →
        (asyncUpdate e d).currentSource = "TV") := by
  intro e d
  refine ⟨?_, ?_, ?_, ?_, ?_⟩
  · intro h1
    simp [asyncUpdate, h1]
  · intro h1 h2
    simp [asyncUpdate, h1, h2]
  · intro h1 h2 h3
    simp [asyncUpdate, h1, h2, h3]
  · intro h1 h2 h3
    simp [asyncUpdate, h1, h2, h3]
  · intro h1 h2
    simp [asyncUpdate, h1]

/-- C4 witness: a title "ATV" that contains "TV" and is itself a
configured source still yields "TV"; and with no matching heuristic the
source "Foo" is kept. -/
theorem c4_source_heuristics_witness :
    (asyncUpdate ⟨["TV", "ATV"], "Foo", "paused"⟩
       ⟨true, some "ATV", "x"⟩).currentSource = "TV" ∧
    (asyncUpdate ⟨["TV", "Netflix"], "Foo", "paused"⟩
       ⟨false, some "News", "HDMI"⟩).currentSource = "Foo" := by
  refine ⟨(c4_source_heuristics _ _).2.2.2.2 (by decide) (by decide), ?_⟩
  exact (c4_source_heuristics _ _).2.2.2.1 (by decide) (by decide) (by decide)

/-- C5: with sources ["TV", "Netflix", "YouTube"], selecting "Netflix"
while the current source is "YouTube" performs stop-YouTube, a 3-unit
sleep, start-Netflix, sets the current source to "Netflix", and sends no
key code (no source-menu or digit key). -/
theorem c5_select_netflix_from_youtube :
    asyncSelectSource ⟨["TV", "Netflix", "YouTube"], "YouTube",
        STATE_PLAYING⟩ "Netflix" =
      ([Call.stopYoutube, Call.sleep 3, Call.startNetflix],
       some ⟨["TV", "Netflix", "YouTube"], "Netflix", STATE_PLAYING⟩) ∧
    ((asyncSelectSource ⟨["TV", "Netflix", "YouTube"], "YouTube",
        STATE_PLAYING⟩ "Netflix").1.filter isKeyCall = []) := by
  refine ⟨by decide, by decide⟩

/-- C6: `async_turn_off` is a no-op when the state is already off and
otherwise sends power-off and sets state off; `async_turn_on` is a no-op
when the state is not off and otherwise sends power-on and sets state
playing; consequently a second consecutive invocation of either command
sends nothing and leaves the state unchanged. -/
theorem c6_power_guards_idempotent :
    ∀ e : Entity,
      (e.state = STATE_OFF → asyncTurnOff e = ([], e)) ∧
      (e.state ≠ STATE_OFF →
        asyncTurnOff e = ([Call.devTurnOff], { e with state := STATE_OFF })) ∧
      (e.state ≠ STATE_OFF → asyncTurnOn e = ([], e)) ∧
      (e.state = STATE_OFF →
        asyncTurnOn e = ([Call.devTurnOn], { e with state := STATE_PLAYING })) ∧
      asyncTurnOff (asyncTurnOff e).2 = ([], (asyncTurnOff e).2) ∧
      asyncTurnOn (asyncTurnOn e).2 = ([], (asyncTurnOn e).2) := by
  intro e
  refine ⟨asyncTurnOff_noop e, asyncTurnOff_act e, asyncTurnOn_noop e,
    asyncTurnOn_act e, ?_, ?_⟩
  · exact asyncTurnOff_noop _ (asyncTurnOff_state e)
  · exact asyncTurnOn_noop _ (asyncTurnOn_state_ne e)

/-- C6 witness: from state "playing", turn-off sends power-off and sets
state off; from state "off", turn-on sends power-on and sets state
playing. -/
theorem c6_power_guards_idempotent_witness :
    asyncTurnOff ⟨["TV"], "TV", "playing"⟩ =
      ([Call.devTurnOff], { Entity.mk ["TV"] "TV" "playing" with
         state := STATE_OFF }) ∧
    asyncTurnOn ⟨["TV"], "TV", "off"⟩ =
      ([Call.devTurnOn], { Entity.mk ["TV"] "TV" "off" with
         state := STATE_PLAYING }) := by
  refine ⟨(c6_power_guards_idempotent _).2.1 (by decide), ?_⟩
  exact (c6_power_guards_idempotent _).2.2.2.1 (by decide)

/-- C7: every successful poll sets the entity state to playing when the
device playing signal is true and to off when it is false; a poll never
yields paused or idle, and an optimistic paused state is overwritten to
playing or off by the next successful poll. -/
theorem c7_poll_state_mapping :
    ∀ (e : Entity) (d : DeviceStatus),
      (asyncUpdate e d).state =
        (if d.playing then STATE_PLAYING else STATE_OFF) ∧
      (asyncUpdate e d).state ≠ STATE_PAUSED ∧
      (asyncUpdate e d).state ≠ STATE_IDLE ∧
      (e.state = STATE_PAUSED →
        (asyncUpdate e d).state = STATE_PLAYING ∨
        (asyncUpdate e d).state = STATE_OFF) := by
  intro e d
  have hst : (asyncUpdate e d).state =
      (if d.playing then STATE_PLAYING else STATE_OFF) := by
    simp [asyncUpdate]
  refine ⟨hst, ?_, ?_, fun _ => ?_⟩
  · rw [hst]; cases d.playing <;> simp [STATE_PLAYING, STATE_OFF, STATE_PAUSED]
  · rw [hst]; cases d.playing <;> simp [STATE_PLAYING, STATE_OFF, STATE_IDLE]
  · rw [hst]; cases d.playing <;> simp

/-- C7 witness: polling a paused entity with the playing signal true sets
the state to playing (here via the overwrite disjunction). -/
theorem c7_poll_state_mapping_witness :
    (asyncUpdate ⟨["TV"], "TV", STATE_PAUSED⟩
       ⟨true, none, ""⟩).state = STATE_PLAYING ∨
    (asyncUpdate ⟨["TV"], "TV", STATE_PAUSED⟩
       ⟨true, none, ""⟩).state = STATE_OFF :=
  (c7_poll_state_mapping _ _).2.2.2 (by decide)

/-- C8: the units-key expression of the channel-entry command,
`1000 - (N/10)*10 + N` with floor division, equals `1000 + (N mod 10)`
for every positive integer N. -/
theorem c8_units_key_formula (n : Int) (h : 0 < n) :
    unitsKeyExpr n = 1000 + n % 10 := by
  unfold unitsKeyExpr
  omega

/-- C8 witness: at N = 123 the expression evaluates to 1003 = 1000 + 3. -/
theorem c8_units_key_formula_witness :
    (0 : Int) < 123 ∧ unitsKeyExpr 123 = 1000 + (123 : Int) % 10 :=
  ⟨by decide, c8_units_key_formula 123 (by decide)⟩

/-- C9: `async_select_source` has no no-op guard: the calls it makes
depend on the current source only through the leaving-calls block, so for
any target s, two entities with the same source list and the same
leaving-calls block (in particular one whose current source already equals
s) receive identical device calls; and the issued sequence is never
empty. -/
theorem c9_no_noop_guard :
    ∀ (e e' : Entity) (s : String),
      (e.sources = e'.sources →
        leavingCalls e.currentSource = leavingCalls e'.currentSource →
        (asyncSelectSource e s).1 = (asyncSelectSource e' s).1) ∧
      (asyncSelectSource e s).1 ≠ [] := by
  intro e e' s
  constructor
  · intro hs hp
    unfold asyncSelectSource
    rw [hp, hs]
    split_ifs
    · rfl
    · rfl
    · cases idxOf e'.sources s <;> rfl
  · unfold asyncSelectSource
    split_ifs
    · simp
    · simp
    · cases idxOf e.sources s <;> simp

/-- C9 witness: selecting "TV" while the current source is already "TV"
issues exactly the calls issued when the current source is the unrelated
"Foo". -/
theorem c9_no_noop_guard_witness :
    (asyncSelectSource ⟨["TV", "Netflix", "YouTube"], "TV",
        STATE_PLAYING⟩ "TV").1 =
      (asyncSelectSource ⟨["TV", "Netflix", "YouTube"], "Foo",
        STATE_PLAYING⟩ "TV").1 :=
  (c9_no_noop_guard _ _ "TV").1 (by decide) (by decide)

/-- C10: selecting a source that is neither "Netflix" nor "YouTube" nor a
member of the configured source list raises inside the index lookup after
the source-menu key 1056 has been sent: the calls are the leaving block
plus the single key 1056 (the leaving block itself contains no key), the
result is the error outcome `none`, and the stored current source is left
unchanged. -/
theorem c10_select_unknown_source_partial :
    ∀ (e : Entity) (s : String),
      s ≠ "Netflix" → s ≠ "YouTube" → s ∉ e.sources →
      asyncSelectSource e s =
        (leavingCalls e.currentSource ++ [Call.sendkey 1056], none) ∧
      (leavingCalls e.currentSource).filter isKeyCall = [] := by
  intro e s h1 h2 h3
  refine ⟨?_, leavingCalls_no_key _⟩
  unfold asyncSelectSource
  rw [if_neg h2, if_neg h1, idxOf_eq_none_of_notMem _ _ h3]

/-- C10 witness: selecting "HDMI" with sources ["TV"] emits only the menu
key 1056 and then fails, leaving the current source untouched. -/
theorem c10_select_unknown_source_partial_witness :
    asyncSelectSource ⟨["TV"], "TV", "playing"⟩ "HDMI" =
      (leavingCalls "TV" ++ [Call.sendkey 1056], none) ∧
    (leavingCalls "TV").filter isKeyCall = [] :=
  c10_select_unknown_source_partial ⟨["TV"], "TV", "playing"⟩ "HDMI"
    (by decide) (by decide) (by decide)

end Vestel
